import Mathlib

/-!
Shallow embedding of the mood/journal analytics and dual-mode persistence
layer of InnerPeaceAi (`src/services/firestoreService.ts`).

Modelling conventions:
* JavaScript numbers are modelled as rationals (`ℚ`); timestamps (epoch
  milliseconds from `Date.now()` / `Date#getTime`) as integers (`ℤ`).
* The module-level arrays `localMoodEntries` / `localJournalEntries` (the
  local fallback store for demo mode) are gathered in an explicit
  `LocalStore` record threaded through each operation.
* A remote Firestore call is an oracle parameter: either it succeeds with a
  result, or it fails.  Failure covers both a thrown error and the 8-second
  `withTimeout` expiry — the `catch` block of each service function treats
  the two identically, so one constructor models both.
* `Array.prototype.sort` with comparator `(a, b) => b.t - a.t` is a stable
  descending sort by `t`; it is modelled as `List.insertionSort` with the
  relation `fun a b => b.t ≤ a.t`, which is likewise stable and descending.
* `Array.prototype.filter` / `slice` become `List.filter` / `List.take`.
-/

namespace InnerPeace

/-- A mood check-in record (`MoodEntry` in `src/types/index.ts`).
Optional (`?`) fields are `Option`s. -/
structure MoodEntry where
  id : String
  userId : String
  mood : ℚ
  moodLabel : String
  emotions : List String
  note : Option String
  timestamp : ℤ
  sentimentScore : Option ℚ
  sentimentLabel : Option String
deriving DecidableEq, Repr

/-- A mood entry as passed to `saveMoodEntry` (`Omit<MoodEntry, 'id'>`). -/
structure MoodEntryData where
  userId : String
  mood : ℚ
  moodLabel : String
  emotions : List String
  note : Option String
  timestamp : ℤ
  sentimentScore : Option ℚ
  sentimentLabel : Option String
deriving DecidableEq, Repr

/-- `{ ...entry, id }`: attach the assigned id to the saved data. -/
def MoodEntryData.withId (e : MoodEntryData) (id : String) : MoodEntry :=
  ⟨id, e.userId, e.mood, e.moodLabel, e.emotions, e.note, e.timestamp,
    e.sentimentScore, e.sentimentLabel⟩

/-- The nested `sentimentAnalysis` object of a journal entry, also the
result shape of `analyzeSentiment` / `getMockSentimentAnalysis`. -/
structure SentimentInfo where
  score : ℚ
  label : String
  insights : List String
deriving DecidableEq, Repr

/-- A journal record (`JournalEntry` in `src/types/index.ts`). -/
structure JournalEntry where
  id : String
  userId : String
  title : String
  content : String
  timestamp : ℤ
  prompt : Option String
  mood : Option ℚ
  emotions : Option (List String)
  sentimentScore : Option ℚ
  sentimentLabel : Option String
  updatedAt : Option ℤ
  sentimentAnalysis : Option SentimentInfo
  patterns : Option (List String)
deriving DecidableEq, Repr

/-- A journal entry as passed to `saveJournalEntry` (`Omit<JournalEntry, 'id'>`). -/
structure JournalEntryData where
  userId : String
  title : String
  content : String
  timestamp : ℤ
  prompt : Option String
  mood : Option ℚ
  emotions : Option (List String)
  sentimentScore : Option ℚ
  sentimentLabel : Option String
  updatedAt : Option ℤ
  sentimentAnalysis : Option SentimentInfo
  patterns : Option (List String)
deriving DecidableEq, Repr

/-- `{ ...entry, id }` for journal entries. -/
def JournalEntryData.withId (e : JournalEntryData) (id : String) : JournalEntry :=
  ⟨id, e.userId, e.title, e.content, e.timestamp, e.prompt, e.mood, e.emotions,
    e.sentimentScore, e.sentimentLabel, e.updatedAt, e.sentimentAnalysis, e.patterns⟩

/-- `Partial<JournalEntry>`: every key optional; a key present in the patch
overrides the stored field in `{ ...old, ...updates }`.  For the entry
fields that are themselves optional, a present key carries a possibly
undefined value, hence the nested `Option`. -/
structure JournalPatch where
  id : Option String := none
  userId : Option String := none
  title : Option String := none
  content : Option String := none
  timestamp : Option ℤ := none
  prompt : Option (Option String) := none
  mood : Option (Option ℚ) := none
  emotions : Option (Option (List String)) := none
  sentimentScore : Option (Option ℚ) := none
  sentimentLabel : Option (Option String) := none
  updatedAt : Option (Option ℤ) := none
  sentimentAnalysis : Option (Option SentimentInfo) := none
  patterns : Option (Option (List String)) := none
deriving DecidableEq, Repr

/-- The spread-merge `{ ...old, ...updates }`: a field present in the patch
wins, an absent one keeps the stored value. -/
def mergeJournalEntry (old : JournalEntry) (p : JournalPatch) : JournalEntry where
  id := p.id.getD old.id
  userId := p.userId.getD old.userId
  title := p.title.getD old.title
  content := p.content.getD old.content
  timestamp := p.timestamp.getD old.timestamp
  prompt := p.prompt.getD old.prompt
  mood := p.mood.getD old.mood
  emotions := p.emotions.getD old.emotions
  sentimentScore := p.sentimentScore.getD old.sentimentScore
  sentimentLabel := p.sentimentLabel.getD old.sentimentLabel
  updatedAt := p.updatedAt.getD old.updatedAt
  sentimentAnalysis := p.sentimentAnalysis.getD old.sentimentAnalysis
  patterns := p.patterns.getD old.patterns

/-- The module-level fallback arrays `localMoodEntries` and
`localJournalEntries`, threaded explicitly. -/
structure LocalStore where
  moods : List MoodEntry
  journals : List JournalEntry
deriving DecidableEq, Repr

/-- Outcome of a remote `addDoc` wrapped in `withTimeout`: either the new
document id, or a failure (thrown error or 8-second timeout). -/
inductive RemoteSave where
  | ok (id : String)
  | failure
deriving DecidableEq, Repr

/-- Outcome of a remote `getDocs` query for mood entries. -/
inductive RemoteMoodQuery where
  | ok (entries : List MoodEntry)
  | failure
deriving DecidableEq, Repr

/-- Outcome of a remote `updateDoc` / `deleteDoc`. -/
inductive RemoteWrite where
  | ok
  | failure
deriving DecidableEq, Repr

/-- The demo-mode / fallback query of `getMoodEntries`:
`localMoodEntries.filter(e => e.userId === userId)
  .sort((a, b) => b.timestamp - a.timestamp).slice(0, limitCount)`. -/
def queryLocalMoods (userId : String) (limitCount : ℕ) (moods : List MoodEntry) :
    List MoodEntry :=
  (List.insertionSort (fun a b => b.timestamp ≤ a.timestamp)
    (moods.filter (fun e => e.userId == userId))).take limitCount

/-- The demo-mode / fallback query of `getJournalEntries`. -/
def queryLocalJournals (userId : String) (limitCount : ℕ) (journals : List JournalEntry) :
    List JournalEntry :=
  (List.insertionSort (fun a b => b.timestamp ≤ a.timestamp)
    (journals.filter (fun e => e.userId == userId))).take limitCount

/-- `saveMoodEntry`.  `demo` is `isDemoMode()`, `remote` the outcome of the
remote `addDoc`, `now` the value of `Date.now()`.  Returns the assigned id
and the updated fallback store; the function is total — no path throws. -/
def saveMoodEntry (demo : Bool) (remote : RemoteSave) (now : ℤ)
    (entry : MoodEntryData) (s : LocalStore) : String × LocalStore :=
  if demo then
    let id := "mood-" ++ toString now
    (id, { s with moods := s.moods ++ [entry.withId id] })
  else
    match remote with
    | .ok docId => (docId, s)
    | .failure =>
      let id := "mood-" ++ toString now
      (id, { s with moods := s.moods ++ [entry.withId id] })

/-- `saveJournalEntry`, same shape with the `journal-` id kind. -/
def saveJournalEntry (demo : Bool) (remote : RemoteSave) (now : ℤ)
    (entry : JournalEntryData) (s : LocalStore) : String × LocalStore :=
  if demo then
    let id := "journal-" ++ toString now
    (id, { s with journals := s.journals ++ [entry.withId id] })
  else
    match remote with
    | .ok docId => (docId, s)
    | .failure =>
      let id := "journal-" ++ toString now
      (id, { s with journals := s.journals ++ [entry.withId id] })

/-- `getMoodEntries` (the `getRecent` operation for moods).  Demo mode and
remote failure both serve the local query; a read never mutates the store
and never throws. -/
def getMoodEntries (demo : Bool) (remote : RemoteMoodQuery) (userId : String)
    (limitCount : ℕ) (s : LocalStore) : List MoodEntry :=
  if demo then
    queryLocalMoods userId limitCount s.moods
  else
    match remote with
    | .ok entries => entries
    | .failure => queryLocalMoods userId limitCount s.moods

/-- Replace the first entry whose id matches, as
`findIndex(e => e.id === id)` followed by
`localJournalEntries[index] = { ...localJournalEntries[index], ...updates }`
does; when no entry matches (`index === -1`) nothing changes. -/
def updateFirst (id : String) (p : JournalPatch) : List JournalEntry → List JournalEntry
  | [] => []
  | e :: rest =>
    if e.id == id then mergeJournalEntry e p :: rest
    else e :: updateFirst id p rest

/-- `updateJournalEntry`: in demo mode or on remote failure, patch the first
locally stored entry with the given id (no-op when absent); on remote
success the local store is untouched. -/
def updateJournalEntry (demo : Bool) (remote : RemoteWrite) (id : String)
    (p : JournalPatch) (s : LocalStore) : LocalStore :=
  if demo then
    { s with journals := updateFirst id p s.journals }
  else
    match remote with
    | .ok => s
    | .failure => { s with journals := updateFirst id p s.journals }

/-- `deleteJournalEntry`: in demo mode or on remote failure,
`localJournalEntries = localJournalEntries.filter(e => e.id !== id)`. -/
def deleteJournalEntry (demo : Bool) (remote : RemoteWrite) (id : String)
    (s : LocalStore) : LocalStore :=
  if demo then
    { s with journals := s.journals.filter (fun e => !(e.id == id)) }
  else
    match remote with
    | .ok => s
    | .failure => { s with journals := s.journals.filter (fun e => !(e.id == id)) }

/-! ### Trend analyzer (`getMoodPatterns`) -/

/-- The `moodTrend` classification values. -/
inductive Trend where
  | improving
  | stable
  | declining
deriving DecidableEq, Repr

/-- The result shape of `getMoodPatterns`. -/
structure MoodPatterns where
  averageMood : ℚ
  moodTrend : Trend
  commonEmotions : List String
  entriesCount : ℕ
deriving DecidableEq, Repr

/-- `entries.reduce((sum, e) => sum + e.mood, 0)`. -/
def moodSum (entries : List MoodEntry) : ℚ :=
  (entries.map (fun e => e.mood)).sum

/-- One step of building `emotionCounts`:
`emotionCounts[emotion] = (emotionCounts[emotion] || 0) + 1` on a string-keyed
object, modelled as an insertion-ordered association list. -/
def bumpCount (counts : List (String × ℕ)) (emotion : String) : List (String × ℕ) :=
  if counts.any (fun p => p.1 == emotion) then
    counts.map (fun p => if p.1 == emotion then (p.1, p.2 + 1) else p)
  else
    counts ++ [(emotion, 1)]

/-- The `emotionCounts` object after the two nested `forEach` loops. -/
def emotionCounts (entries : List MoodEntry) : List (String × ℕ) :=
  entries.foldl (fun acc e => e.emotions.foldl bumpCount acc) []

/-- The pure analysis body of `getMoodPatterns`, applied to the window of
entries returned (newest-first) by `getMoodEntries`. -/
def analyzeMoodPatterns (entries : List MoodEntry) : MoodPatterns :=
  if entries.length = 0 then
    ⟨0, .stable, [], 0⟩
  else
    let averageMood := moodSum entries / entries.length
    let midpoint := entries.length / 2
    let recentEntries := entries.take midpoint
    let olderEntries := entries.drop midpoint
    let recentAvg :=
      if 0 < recentEntries.length then moodSum recentEntries / recentEntries.length
      else averageMood
    let olderAvg :=
      if 0 < olderEntries.length then moodSum olderEntries / olderEntries.length
      else averageMood
    let moodTrend : Trend :=
      if recentAvg - olderAvg > 3/10 then .improving
      else if olderAvg - recentAvg > 3/10 then .declining
      else .stable
    let commonEmotions :=
      ((List.insertionSort (fun a b => b.2 ≤ a.2) (emotionCounts entries)).take 5).map
        Prod.fst
    ⟨averageMood, moodTrend, commonEmotions, entries.length⟩

/-- `getMoodPatterns`: fetch the window via `getMoodEntries`, then run the
pure analysis.  The returned store component records that the operation
performs no write. -/
def getMoodPatterns (demo : Bool) (remote : RemoteMoodQuery) (userId : String)
    (days : ℕ) (s : LocalStore) : MoodPatterns × LocalStore :=
  (analyzeMoodPatterns (getMoodEntries demo remote userId days s), s)

/-- The trend classification as §4.3 of the specification words it, on the
bare list of mood values (newest-first): split at `mid = floor(length / 2)`,
take each half's mean (substituting the overall average for an empty half),
and compare `delta = recentMean - olderMean` against the `0.3` threshold. -/
def specMoodTrend (moods : List ℚ) : Trend :=
  let mid := moods.length / 2
  let recent := moods.take mid
  let older := moods.drop mid
  let overall := moods.sum / moods.length
  let recentMean := if recent = [] then overall else recent.sum / recent.length
  let olderMean := if older = [] then overall else older.sum / older.length
  let delta := recentMean - olderMean
  if delta > 3/10 then .improving
  else if -delta > 3/10 then .declining
  else .stable

/-! ### Local fallback sentiment scorer (`getMockSentimentAnalysis`) -/

/-- Character-list version of `String.prototype.startsWith`. -/
def beginsWith : List Char → List Char → Bool
  | [], _ => true
  | _ :: _, [] => false
  | a :: as, b :: bs => a == b && beginsWith as bs

/-- Character-list version of `String.prototype.includes`: does `needle`
occur as a contiguous substring of `hay`? -/
def containsChars (needle hay : List Char) : Bool :=
  beginsWith needle hay ||
    match hay with
    | [] => false
    | _ :: t => containsChars needle t

/-- `text.toLowerCase()` (restricted, like the word lists, to the ASCII
range where JavaScript and Lean lowercasing agree). -/
def jsToLower (s : String) : String :=
  ⟨s.data.map Char.toLower⟩

/-- The fixed positive-word list of `getMockSentimentAnalysis`. -/
def positiveWords : List String :=
  ["happy", "good", "great", "wonderful", "excited", "grateful", "love", "joy"]

/-- The fixed negative-word list of `getMockSentimentAnalysis`. -/
def negativeWords : List String :=
  ["sad", "angry", "frustrated", "anxious", "worried", "stressed", "tired", "hurt"]

/-- `positiveWords.filter(word => lowerText.includes(word)).length`. -/
def positiveCount (text : String) : ℕ :=
  (positiveWords.filter (fun w => containsChars w.data (jsToLower text).data)).length

/-- `negativeWords.filter(word => lowerText.includes(word)).length`. -/
def negativeCount (text : String) : ℕ :=
  (negativeWords.filter (fun w => containsChars w.data (jsToLower text).data)).length

/-- `(positiveCount - negativeCount) / Math.max(positiveCount + negativeCount, 1)`. -/
def rawSentimentRatio (text : String) : ℚ :=
  ((positiveCount text : ℚ) - (negativeCount text : ℚ)) /
    max ((positiveCount text : ℚ) + (negativeCount text : ℚ)) 1

/-- `score = Math.max(-1, Math.min(1, score * 0.8))`. -/
def mockSentimentScore (text : String) : ℚ :=
  max (-1) (min 1 (rawSentimentRatio text * (8/10)))

/-- The label banding of the scorer: `> 0.5` very positive, `> 0.2`
positive, `< -0.5` very negative, `< -0.2` negative, else neutral. -/
def sentimentLabelOf (score : ℚ) : String :=
  if score > 1/2 then "Very Positive"
  else if score > 1/5 then "Positive"
  else if score < -(1/2) then "Very Negative"
  else if score < -(1/5) then "Negative"
  else "Neutral"

/-- The three fixed insight strings the fallback scorer always returns. -/
def mockInsights : List String :=
  ["Your entry shows self-reflection and emotional awareness.",
   "Consider exploring the emotions mentioned through journaling.",
   "Remember that all emotions are valid and temporary."]

/-- `getMockSentimentAnalysis`: the local lexical fallback scorer. -/
def getMockSentimentAnalysis (text : String) : SentimentInfo :=
  ⟨mockSentimentScore text, sentimentLabelOf (mockSentimentScore text), mockInsights⟩

/-! ### Pre-write stripping of undefined fields (`removeUndefined`) -/

/-- The JavaScript values a record sent to Firestore can contain:
`undefined`, `null`, primitives, `Date` and Firestore `Timestamp` wrappers,
arrays, and plain objects (insertion-ordered string-keyed fields). -/
inductive JSValue where
  | undef
  | null
  | str (s : String)
  | num (q : ℚ)
  | bool (b : Bool)
  | date (ms : ℤ)
  | timestamp (ms : ℤ)
  | arr (elems : List JSValue)
  | obj (fields : List (String × JSValue))

/-- `value === undefined`. -/
def JSValue.isUndef : JSValue → Bool
  | .undef => true
  | _ => false

/-- The recursion guard of `removeUndefined`:
`value && typeof value === 'object' && !Array.isArray(value) &&
!(value instanceof Date) && !(value instanceof Timestamp)` — true exactly
for plain objects (`null` is falsy, so it fails the first conjunct). -/
def JSValue.isPlainObject : JSValue → Bool
  | .obj _ => true
  | _ => false

mutual

/-- `removeUndefined`: rebuild a plain object keeping only fields whose
value is defined, recursing into plain-object values; any other value is
returned as-is. -/
def removeUndefined : JSValue → JSValue
  | .obj fields => .obj (removeUndefinedFields fields)
  | v => v

/-- The `Object.entries(obj).forEach` loop of `removeUndefined`: skip
`undefined` values, clean plain-object values recursively, copy everything
else unchanged. -/
def removeUndefinedFields : List (String × JSValue) → List (String × JSValue)
  | [] => []
  | (k, v) :: rest =>
    if v.isUndef then removeUndefinedFields rest
    else if v.isPlainObject then (k, removeUndefined v) :: removeUndefinedFields rest
    else (k, v) :: removeUndefinedFields rest

end

mutual

/-- No field reachable through plain objects only (the values
`removeUndefined` descends into) is `undefined`. -/
def NoUndefInObjects : JSValue → Prop
  | .obj fields => NoUndefInFields fields
  | _ => True

/-- Field-list form of `NoUndefInObjects`. -/
def NoUndefInFields : List (String × JSValue) → Prop
  | [] => True
  | (_, v) :: rest => v ≠ .undef ∧ NoUndefInObjects v ∧ NoUndefInFields rest

end

/-! ### Concrete fixtures for the testable scenarios -/

/-- A minimal mood record for a save call in the scenarios. -/
def demoMood (u : String) (m : ℚ) (ts : ℤ) : MoodEntryData :=
  ⟨u, m, "", [], none, ts, none, none⟩

/-- A newest-first window of entries carrying the given mood values, as the
trend examples of §8 describe (`[5,5,1,1]` and friends). -/
def moodWindow (moods : List ℚ) : List MoodEntry :=
  moods.map (fun m => ⟨"", "u", m, "", [], none, 0, none, none⟩)

/-- A window of entries carrying the given emotion-tag lists, for the
common-emotions ranking example of §8. -/
def emotionWindow (ess : List (List String)) : List MoodEntry :=
  ess.map (fun es => ⟨"", "u", 3, "", es, none, 0, none, none⟩)

/-- End-to-end scenario C of §8: with demo mode on, save three mood entries
for `"u1"` and two for `"u2"` (timestamps 10..30, `Date.now()` used both as
timestamp source and id suffix). -/
def scenarioStoreC : LocalStore :=
  (saveMoodEntry true .failure 30 (demoMood "u1" 4 30)
    ((saveMoodEntry true .failure 25 (demoMood "u2" 2 25)
      ((saveMoodEntry true .failure 20 (demoMood "u1" 5 20)
        ((saveMoodEntry true .failure 15 (demoMood "u2" 3 15)
          ((saveMoodEntry true .failure 10 (demoMood "u1" 3 10)
            ⟨[], []⟩).2)).2)).2)).2)).2

/-- A stored journal entry used to exercise the update frame property. -/
def sampleJournal : JournalEntry :=
  ⟨"j1", "u1", "t", "c", 0, none, none, none, none, none, none, none, none⟩

/-- A patch that only sets the title. -/
def samplePatch : JournalPatch :=
  { title := some "T2" }

/-- The newest-first comparator of the local queries is total. -/
instance : IsTotal MoodEntry (fun a b => b.timestamp ≤ a.timestamp) :=
  ⟨fun a b => (Int.le_total b.timestamp a.timestamp)⟩

/-- The newest-first comparator of the local queries is transitive. -/
instance : IsTrans MoodEntry (fun a b => b.timestamp ≤ a.timestamp) :=
  ⟨fun _ _ _ hab hbc => le_trans hbc hab⟩

/-! ## Theorems -/

theorem noUndef_removeUndefinedFields :
    (fields : List (String × JSValue)) → NoUndefInFields (removeUndefinedFields fields)
  | [] => by simp [removeUndefinedFields, NoUndefInFields]
  | (k, .undef) :: rest => by
    simpa [removeUndefinedFields, JSValue.isUndef] using noUndef_removeUndefinedFields rest
  | (k, .null) :: rest => by
    simpa [removeUndefinedFields, JSValue.isUndef, JSValue.isPlainObject, NoUndefInFields,
      NoUndefInObjects] using noUndef_removeUndefinedFields rest
  | (k, .str s) :: rest => by
    simpa [removeUndefinedFields, JSValue.isUndef, JSValue.isPlainObject, NoUndefInFields,
      NoUndefInObjects] using noUndef_removeUndefinedFields rest
  | (k, .num q) :: rest => by
    simpa [removeUndefinedFields, JSValue.isUndef, JSValue.isPlainObject, NoUndefInFields,
      NoUndefInObjects] using noUndef_removeUndefinedFields rest
  | (k, .bool b) :: rest => by
    simpa [removeUndefinedFields, JSValue.isUndef, JSValue.isPlainObject, NoUndefInFields,
      NoUndefInObjects] using noUndef_removeUndefinedFields rest
  | (k, .date ms) :: rest => by
    simpa [removeUndefinedFields, JSValue.isUndef, JSValue.isPlainObject, NoUndefInFields,
      NoUndefInObjects] using noUndef_removeUndefinedFields rest
  | (k, .timestamp ms) :: rest => by
    simpa [removeUndefinedFields, JSValue.isUndef, JSValue.isPlainObject, NoUndefInFields,
      NoUndefInObjects] using noUndef_removeUndefinedFields rest
  | (k, .arr elems) :: rest => by
    simpa [removeUndefinedFields, JSValue.isUndef, JSValue.isPlainObject, NoUndefInFields,
      NoUndefInObjects] using noUndef_removeUndefinedFields rest
  | (k, .obj f) :: rest => by
    simp only [removeUndefinedFields, JSValue.isUndef, JSValue.isPlainObject, if_pos,
      if_neg, Bool.false_eq_true, ite_false, ite_true, removeUndefined, NoUndefInFields,
      NoUndefInObjects]
    exact ⟨by simp, noUndef_removeUndefinedFields f, noUndef_removeUndefinedFields rest⟩

theorem keys_removeUndefinedFields (fields : List (String × JSValue)) :
    (removeUndefinedFields fields).map Prod.fst =
      (fields.filter (fun p => !(p.2.isUndef))).map Prod.fst := by
  induction fields with
  | nil => simp [removeUndefinedFields]
  | cons hd rest ih =>
    obtain ⟨k, v⟩ := hd
    by_cases hu : v.isUndef
    · simp [removeUndefinedFields, hu, ih]
    · by_cases ho : v.isPlainObject
      · simp [removeUndefinedFields, hu, ho, ih]
      · simp [removeUndefinedFields, hu, ho, ih]

/-- **C8**: `removeUndefined` drops every `undefined` field, recursing into
nested plain objects, while arrays, `Date`s and `Timestamp`s are passed
through unchanged and never descended into; all other keys survive in
order. -/
theorem removeUndefined_strips_exactly :
    (∀ fields, NoUndefInFields (removeUndefinedFields fields)) ∧
    (∀ v : JSValue, NoUndefInObjects (removeUndefined v)) ∧
    (∀ k elems rest, removeUndefinedFields ((k, JSValue.arr elems) :: rest) =
        (k, JSValue.arr elems) :: removeUndefinedFields rest) ∧
    (∀ k ms rest, removeUndefinedFields ((k, JSValue.date ms) :: rest) =
        (k, JSValue.date ms) :: removeUndefinedFields rest) ∧
    (∀ k ms rest, removeUndefinedFields ((k, JSValue.timestamp ms) :: rest) =
        (k, JSValue.timestamp ms) :: removeUndefinedFields rest) ∧
    (∀ k rest, removeUndefinedFields ((k, JSValue.undef) :: rest) =
        removeUndefinedFields rest) ∧
    (∀ v : JSValue, v.isPlainObject = false → removeUndefined v = v) ∧
    (∀ fields, (removeUndefinedFields fields).map Prod.fst =
        (fields.filter (fun p => !(p.2.isUndef))).map Prod.fst) := by
  refine ⟨noUndef_removeUndefinedFields, ?_, ?_, ?_, ?_, ?_, ?_,
    keys_removeUndefinedFields⟩
  · intro v
    cases v <;>
      simp [removeUndefined, NoUndefInObjects, noUndef_removeUndefinedFields]
  · intro k elems rest
    simp [removeUndefinedFields, JSValue.isUndef, JSValue.isPlainObject]
  · intro k ms rest
    simp [removeUndefinedFields, JSValue.isUndef, JSValue.isPlainObject]
  · intro k ms rest
    simp [removeUndefinedFields, JSValue.isUndef, JSValue.isPlainObject]
  · intro k rest
    simp [removeUndefinedFields, JSValue.isUndef]
  · intro v hv
    cases v <;> simp_all [removeUndefined, JSValue.isPlainObject]

/-- Witness for C8: a `Date` value is passed through unchanged. -/
theorem removeUndefined_strips_exactly_witness :
    removeUndefined (JSValue.date 0) = JSValue.date 0 :=
  removeUndefined_strips_exactly.2.2.2.2.2.2.1 (JSValue.date 0) rfl

/-- **C7**: `deleteJournalEntry` is total and idempotent on every path:
deleting twice equals deleting once, deleting a never-created id is a
no-op, and every entry with a different id survives. -/
theorem deleteJournalEntry_idempotent_noop :
    (∀ demo remote id s, deleteJournalEntry demo remote id
        (deleteJournalEntry demo remote id s) = deleteJournalEntry demo remote id s) ∧
    (∀ demo remote id s, (∀ e ∈ s.journals, e.id ≠ id) →
        deleteJournalEntry demo remote id s = s) ∧
    (∀ demo remote id s e, e ∈ s.journals → e.id ≠ id →
        e ∈ (deleteJournalEntry demo remote id s).journals) := by
  refine ⟨?_, ?_, ?_⟩
  · intro demo remote id s
    cases demo <;> cases remote <;>
      simp [deleteJournalEntry, List.filter_filter]
  · intro demo remote id s h
    have hfix : s.journals.filter (fun e => !(e.id == id)) = s.journals :=
      List.filter_eq_self.mpr (fun e he => by simpa using h e he)
    cases demo <;> cases remote <;> simp [deleteJournalEntry, hfix]
  · intro demo remote id s e he hne
    cases demo <;> cases remote <;> simp [deleteJournalEntry] <;>
      first
        | exact he
        | exact ⟨he, hne⟩

/-- Witness for C7: deleting an id from an empty store is a no-op. -/
theorem deleteJournalEntry_idempotent_noop_witness :
    deleteJournalEntry true RemoteWrite.ok "x" ⟨[], []⟩ = (⟨[], []⟩ : LocalStore) :=
  deleteJournalEntry_idempotent_noop.2.1 true RemoteWrite.ok "x" ⟨[], []⟩
    (fun e he => absurd he (List.not_mem_nil e))

theorem abs_rawSentimentRatio_le_one (text : String) : |rawSentimentRatio text| ≤ 1 := by
  unfold rawSentimentRatio
  have hp : (0:ℚ) ≤ (positiveCount text : ℚ) := by positivity
  have hn : (0:ℚ) ≤ (negativeCount text : ℚ) := by positivity
  have hd : (0:ℚ) < max ((positiveCount text : ℚ) + (negativeCount text : ℚ)) 1 :=
    lt_of_lt_of_le one_pos (le_max_right _ _)
  rw [abs_div, abs_of_pos hd, div_le_one hd]
  have habs : |(positiveCount text : ℚ) - (negativeCount text : ℚ)| ≤
      (positiveCount text : ℚ) + (negativeCount text : ℚ) := by
    rw [abs_le]; constructor <;> linarith
  exact habs.trans (le_max_left _ _)

/-- **C9**: the fallback sentiment score always lies in `[-0.8, 0.8]`; the
final clamp to `[-1, 1]` is never binding (the score equals the unclamped
`ratio * 0.8`) and `±1` are unreachable. -/
theorem mockSentiment_score_in_bounds :
    ∀ text : String,
      (getMockSentimentAnalysis text).score = rawSentimentRatio text * (8/10) ∧
      -(4/5) ≤ (getMockSentimentAnalysis text).score ∧
      (getMockSentimentAnalysis text).score ≤ 4/5 ∧
      (getMockSentimentAnalysis text).score ≠ 1 ∧
      (getMockSentimentAnalysis text).score ≠ -1 := by
  intro text
  have h := abs_le.mp (abs_rawSentimentRatio_le_one text)
  have hlo : -(4/5) ≤ rawSentimentRatio text * (8/10) := by nlinarith [h.1, h.2]
  have hhi : rawSentimentRatio text * (8/10) ≤ 4/5 := by nlinarith [h.1, h.2]
  have hid : (getMockSentimentAnalysis text).score = rawSentimentRatio text * (8/10) := by
    show mockSentimentScore text = _
    unfold mockSentimentScore
    rw [min_eq_right (by linarith : rawSentimentRatio text * (8/10) ≤ 1),
      max_eq_right (by linarith : (-1 : ℚ) ≤ rawSentimentRatio text * (8/10))]
  refine ⟨hid, ?_, ?_, ?_, ?_⟩ <;> rw [hid]
  · exact hlo
  · exact hhi
  · intro hc; rw [hc] at hhi; norm_num at hhi
  · intro hc; rw [hc] at hlo; norm_num at hlo

/-- **C4**: the fallback sentiment scorer computes
`clamp((pos - neg) / max(pos + neg, 1) * 0.8, -1, 1)` over the fixed word
lists, bands the score by the fixed thresholds, and returns the three fixed
insight strings; the banding matches the documented bands, with
`0.6 ↦ "Very Positive"` and `-0.3 ↦ "Negative"`. -/
theorem mockSentiment_matches_spec :
    (∀ text, (getMockSentimentAnalysis text).score =
        max (-1) (min 1 (((positiveCount text : ℚ) - (negativeCount text : ℚ)) /
          max ((positiveCount text : ℚ) + (negativeCount text : ℚ)) 1 * (8/10)))) ∧
    (∀ text, (getMockSentimentAnalysis text).label =
        sentimentLabelOf (getMockSentimentAnalysis text).score) ∧
    (∀ text, (getMockSentimentAnalysis text).insights = mockInsights ∧
        mockInsights.length = 3) ∧
    (∀ s : ℚ,
      (s > 1/2 → sentimentLabelOf s = "Very Positive") ∧
      (s ≤ 1/2 → s > 1/5 → sentimentLabelOf s = "Positive") ∧
      (s < -(1/2) → sentimentLabelOf s = "Very Negative") ∧
      (-(1/2) ≤ s → s < -(1/5) → sentimentLabelOf s = "Negative") ∧
      (-(1/5) ≤ s → s ≤ 1/5 → sentimentLabelOf s = "Neutral")) ∧
    sentimentLabelOf (3/5) = "Very Positive" ∧
    sentimentLabelOf (-(3/10)) = "Negative" := by
  refine ⟨fun text => rfl, fun text => rfl, fun text => ⟨rfl, rfl⟩, ?_, ?_, ?_⟩
  · intro s
    refine ⟨?_, ?_, ?_, ?_, ?_⟩ <;>
      · intros
        unfold sentimentLabelOf
        split_ifs <;> first | rfl | (exfalso; linarith)
  · unfold sentimentLabelOf
    split_ifs <;> first | rfl | (exfalso; linarith)
  · unfold sentimentLabelOf
    split_ifs <;> first | rfl | (exfalso; linarith)

/-- Witness for C4: the banding applied at the two sample scores. -/
theorem mockSentiment_matches_spec_witness :
    sentimentLabelOf (3/5) = "Very Positive" ∧ sentimentLabelOf (-(3/10)) = "Negative" :=
  ⟨(mockSentiment_matches_spec.2.2.2.1 (3/5)).1 (by norm_num),
    (mockSentiment_matches_spec.2.2.2.1 (-(3/10))).2.2.2.1 (by norm_num) (by norm_num)⟩

theorem moodWindow_map (ms : List ℚ) :
    (moodWindow ms).map (fun e => e.mood) = ms := by
  simp [moodWindow, List.map_map, Function.comp_def]

theorem analyzeMoodPatterns_trend_eq_spec (entries : List MoodEntry) (h : entries ≠ []) :
    (analyzeMoodPatterns entries).moodTrend =
      specMoodTrend (entries.map (fun e => e.mood)) := by
  have h0 : ¬ entries.length = 0 := fun hl => h (List.length_eq_zero.mp hl)
  have hmean : ∀ l : List MoodEntry,
      (if 0 < l.length then moodSum l / (l.length : ℚ)
        else moodSum entries / (entries.length : ℚ)) =
      (if l.map (fun e => e.mood) = [] then
          (entries.map (fun e => e.mood)).sum / ((entries.length : ℕ) : ℚ)
        else (l.map (fun e => e.mood)).sum /
          (((l.map (fun e => e.mood)).length : ℕ) : ℚ)) := by
    intro l
    by_cases hl : l = []
    · subst hl
      simp [moodSum]
    · have h1 : 0 < l.length := List.length_pos.mpr hl
      have h2 : ¬ l.map (fun e => e.mood) = [] := by
        simpa [List.map_eq_nil_iff] using hl
      rw [if_pos h1, if_neg h2]
      simp [moodSum, List.length_map]
  unfold analyzeMoodPatterns specMoodTrend
  rw [if_neg h0]
  dsimp only
  rw [List.length_map, ← List.map_take, ← List.map_drop,
    hmean (entries.take (entries.length / 2)),
    hmean (entries.drop (entries.length / 2)), neg_sub]

/-- **C2**: the trend classification splits the newest-first window at
`mid = floor(length / 2)`, compares the half means (substituting the
overall average for an empty half) against the `0.3` threshold exactly as
the spec words it, and classifies the three sample windows as improving,
declining and stable. -/
theorem moodTrend_matches_spec :
    (∀ entries : List MoodEntry, entries ≠ [] →
      (analyzeMoodPatterns entries).moodTrend =
        specMoodTrend (entries.map (fun e => e.mood))) ∧
    (analyzeMoodPatterns (moodWindow [5, 5, 1, 1])).moodTrend = Trend.improving ∧
    (analyzeMoodPatterns (moodWindow [1, 1, 5, 5])).moodTrend = Trend.declining ∧
    (analyzeMoodPatterns (moodWindow [3, 3, 3, 3])).moodTrend = Trend.stable := by
  have hspec1 : specMoodTrend [5, 5, 1, 1] = Trend.improving := by
    have ht : List.take (([(5:ℚ), 5, 1, 1]).length / 2) [(5:ℚ), 5, 1, 1] = [(5:ℚ), 5] := rfl
    have hd : List.drop (([(5:ℚ), 5, 1, 1]).length / 2) [(5:ℚ), 5, 1, 1] = [(1:ℚ), 1] := rfl
    simp only [specMoodTrend, ht, hd, List.cons_ne_nil, if_false, ite_false]
    norm_num [List.cons_ne_nil]
  have hspec2 : specMoodTrend [1, 1, 5, 5] = Trend.declining := by
    have ht : List.take (([(1:ℚ), 1, 5, 5]).length / 2) [(1:ℚ), 1, 5, 5] = [(1:ℚ), 1] := rfl
    have hd : List.drop (([(1:ℚ), 1, 5, 5]).length / 2) [(1:ℚ), 1, 5, 5] = [(5:ℚ), 5] := rfl
    simp only [specMoodTrend, ht, hd, List.cons_ne_nil, if_false, ite_false]
    norm_num [List.cons_ne_nil]
  have hspec3 : specMoodTrend [3, 3, 3, 3] = Trend.stable := by
    have ht : List.take (([(3:ℚ), 3, 3, 3]).length / 2) [(3:ℚ), 3, 3, 3] = [(3:ℚ), 3] := rfl
    have hd : List.drop (([(3:ℚ), 3, 3, 3]).length / 2) [(3:ℚ), 3, 3, 3] = [(3:ℚ), 3] := rfl
    simp only [specMoodTrend, ht, hd, List.cons_ne_nil, if_false, ite_false]
    norm_num [List.cons_ne_nil]
  refine ⟨analyzeMoodPatterns_trend_eq_spec, ?_, ?_, ?_⟩
  · rw [analyzeMoodPatterns_trend_eq_spec _ (by simp [moodWindow]), moodWindow_map]
    exact hspec1
  · rw [analyzeMoodPatterns_trend_eq_spec _ (by simp [moodWindow]), moodWindow_map]
    exact hspec2
  · rw [analyzeMoodPatterns_trend_eq_spec _ (by simp [moodWindow]), moodWindow_map]
    exact hspec3

/-- Witness for C2: the refinement instantiated at the stable sample window. -/
theorem moodTrend_matches_spec_witness :
    (analyzeMoodPatterns (moodWindow [3, 3, 3, 3])).moodTrend =
      specMoodTrend ((moodWindow [3, 3, 3, 3]).map (fun e => e.mood)) :=
  moodTrend_matches_spec.1 (moodWindow [3, 3, 3, 3]) (by simp [moodWindow])

/-- **C5**: `commonEmotions` returns at most five tag names, and on the
sample emotion lists `[["a","b"],["a"],["a","c"],["b"]]` it ranks them
`["a", "b", "c"]` (counts 3, 2, 1, ties by first encounter). -/
theorem commonEmotions_ranking :
    (∀ entries : List MoodEntry,
      (analyzeMoodPatterns entries).commonEmotions.length ≤ 5) ∧
    (analyzeMoodPatterns
      (emotionWindow [["a", "b"], ["a"], ["a", "c"], ["b"]])).commonEmotions =
      ["a", "b", "c"] := by
  constructor
  · intro entries
    unfold analyzeMoodPatterns
    by_cases h : entries.length = 0
    · rw [if_pos h]
      simp
    · rw [if_neg h]
      dsimp only
      simp only [List.length_map, List.length_take]
      exact min_le_left _ _
  · rfl

/-- **C6**: `getMoodPatterns` performs no write to the store and its result
factors through a pure function of the fetched window: two runs whose
windows coincide produce identical analytics. -/
theorem moodPatterns_pure :
    (∀ demo remote uid days s, (getMoodPatterns demo remote uid days s).2 = s) ∧
    (∀ demo remote uid days s, (getMoodPatterns demo remote uid days s).1 =
        analyzeMoodPatterns (getMoodEntries demo remote uid days s)) ∧
    (∀ d₁ r₁ u₁ n₁ s₁ d₂ r₂ u₂ n₂ s₂,
      getMoodEntries d₁ r₁ u₁ n₁ s₁ = getMoodEntries d₂ r₂ u₂ n₂ s₂ →
      (getMoodPatterns d₁ r₁ u₁ n₁ s₁).1 = (getMoodPatterns d₂ r₂ u₂ n₂ s₂).1) := by
  refine ⟨fun _ _ _ _ _ => rfl, fun _ _ _ _ _ => rfl, ?_⟩
  intro d₁ r₁ u₁ n₁ s₁ d₂ r₂ u₂ n₂ s₂ h
  show analyzeMoodPatterns _ = analyzeMoodPatterns _
  exact congrArg analyzeMoodPatterns h

/-- Witness for C6: two stores that differ in their journal collections but
share the mood window get identical analytics. -/
theorem moodPatterns_pure_witness :
    (getMoodPatterns true RemoteMoodQuery.failure "u" 1 ⟨[], []⟩).1 =
      (getMoodPatterns true RemoteMoodQuery.failure "u" 1 ⟨[], [sampleJournal]⟩).1 :=
  moodPatterns_pure.2.2 true RemoteMoodQuery.failure "u" 1 ⟨[], []⟩
    true RemoteMoodQuery.failure "u" 1 ⟨[], [sampleJournal]⟩ rfl

theorem idKind_append_ne_empty (p t : String) (hp : 0 < p.length) : (p ++ t) ≠ "" := by
  intro hc
  have h' := congrArg String.length hc
  rw [String.length_append] at h'
  have h0 : ("" : String).length = 0 := rfl
  rw [h0] at h'
  omega

theorem mem_queryLocalMoods {uid : String} {lim : ℕ} {moods : List MoodEntry}
    {e : MoodEntry} (he : e ∈ moods) (hu : e.userId = uid)
    (hl : (moods.filter (fun x => x.userId == uid)).length ≤ lim) :
    e ∈ queryLocalMoods uid lim moods := by
  unfold queryLocalMoods
  have hf : e ∈ moods.filter (fun x => x.userId == uid) :=
    List.mem_filter.mpr ⟨he, by simp [hu]⟩
  rw [List.take_of_length_le]
  · exact (List.mem_insertionSort _).mpr hf
  · rw [List.length_insertionSort]
    exact hl

theorem mem_queryLocalJournals {uid : String} {lim : ℕ} {journals : List JournalEntry}
    {e : JournalEntry} (he : e ∈ journals) (hu : e.userId = uid)
    (hl : (journals.filter (fun x => x.userId == uid)).length ≤ lim) :
    e ∈ queryLocalJournals uid lim journals := by
  unfold queryLocalJournals
  have hf : e ∈ journals.filter (fun x => x.userId == uid) :=
    List.mem_filter.mpr ⟨he, by simp [hu]⟩
  rw [List.take_of_length_le]
  · exact (List.mem_insertionSort _).mpr hf
  · rw [List.length_insertionSort]
    exact hl

theorem saveMoodEntry_fallback (demo : Bool) (remote : RemoteSave) (now : ℤ)
    (e : MoodEntryData) (s : LocalStore) (h : demo = true ∨ remote = RemoteSave.failure) :
    saveMoodEntry demo remote now e s =
      ("mood-" ++ toString now,
        { s with moods := s.moods ++ [e.withId ("mood-" ++ toString now)] }) := by
  rcases h with h | h
  · subst h; simp [saveMoodEntry]
  · subst h; cases demo <;> simp [saveMoodEntry]

theorem saveJournalEntry_fallback (demo : Bool) (remote : RemoteSave) (now : ℤ)
    (e : JournalEntryData) (s : LocalStore) (h : demo = true ∨ remote = RemoteSave.failure) :
    saveJournalEntry demo remote now e s =
      ("journal-" ++ toString now,
        { s with journals := s.journals ++ [e.withId ("journal-" ++ toString now)] }) := by
  rcases h with h | h
  · subst h; simp [saveJournalEntry]
  · subst h; cases demo <;> simp [saveJournalEntry]

/-- **C1**: in demo mode or when the remote write fails (throw or timeout),
`saveMoodEntry`/`saveJournalEntry` return the synthesized non-empty id
`{kind}-{timestamp}`, append the record (carrying that id) to the local
fallback store, and the record is then returned by the local `getRecent`
query for its owner — at least one persistence outcome per save call. -/
theorem save_fallback_persists :
    ∀ (demo : Bool) (remote : RemoteSave) (now : ℤ) (s : LocalStore),
      demo = true ∨ remote = RemoteSave.failure →
      (∀ e : MoodEntryData,
        (saveMoodEntry demo remote now e s).1 = "mood-" ++ toString now ∧
        (saveMoodEntry demo remote now e s).1 ≠ "" ∧
        (saveMoodEntry demo remote now e s).2.moods =
          s.moods ++ [e.withId ("mood-" ++ toString now)] ∧
        (∀ lim, (((saveMoodEntry demo remote now e s).2.moods.filter
              (fun x => x.userId == e.userId)).length ≤ lim) →
          e.withId ("mood-" ++ toString now) ∈
            queryLocalMoods e.userId lim (saveMoodEntry demo remote now e s).2.moods)) ∧
      (∀ e : JournalEntryData,
        (saveJournalEntry demo remote now e s).1 = "journal-" ++ toString now ∧
        (saveJournalEntry demo remote now e s).1 ≠ "" ∧
        (saveJournalEntry demo remote now e s).2.journals =
          s.journals ++ [e.withId ("journal-" ++ toString now)] ∧
        (∀ lim, (((saveJournalEntry demo remote now e s).2.journals.filter
              (fun x => x.userId == e.userId)).length ≤ lim) →
          e.withId ("journal-" ++ toString now) ∈
            queryLocalJournals e.userId lim
              (saveJournalEntry demo remote now e s).2.journals)) := by
  intro demo remote now s h
  constructor
  · intro e
    rw [saveMoodEntry_fallback demo remote now e s h]
    refine ⟨rfl, idKind_append_ne_empty _ _ (by decide), rfl, ?_⟩
    intro lim hl
    exact mem_queryLocalMoods (by simp) rfl hl
  · intro e
    rw [saveJournalEntry_fallback demo remote now e s h]
    refine ⟨rfl, idKind_append_ne_empty _ _ (by decide), rfl, ?_⟩
    intro lim hl
    exact mem_queryLocalJournals (by simp) rfl hl

/-- Witness for C1: a demo-mode save into an empty store, queried back with
limit 1. -/
theorem save_fallback_persists_witness :
    (demoMood "u1" 3 7).withId ("mood-" ++ toString (7:ℤ)) ∈
      queryLocalMoods "u1" 1
        (saveMoodEntry true RemoteSave.failure 7 (demoMood "u1" 3 7) ⟨[], []⟩).2.moods :=
  ((save_fallback_persists true RemoteSave.failure 7 ⟨[], []⟩ (Or.inl rfl)).1
    (demoMood "u1" 3 7)).2.2.2 1 (by decide)

/-- **C3**: the local `getRecent` query returns at most `limit` records, all
owned by the queried user, newest-first by timestamp; remote failure serves
exactly this query; the empty result is a plain value; and scenario C (3
saves for "u1", 2 for "u2", demo mode) returns exactly the three "u1"
records newest-first. -/
theorem getRecent_filter_order_limit :
    (∀ (uid : String) (lim : ℕ) (moods : List MoodEntry),
      (queryLocalMoods uid lim moods).length ≤ lim ∧
      (∀ e ∈ queryLocalMoods uid lim moods, e.userId = uid) ∧
      List.Sorted (fun a b => b.timestamp ≤ a.timestamp) (queryLocalMoods uid lim moods)) ∧
    (∀ demo uid lim s,
      getMoodEntries demo RemoteMoodQuery.failure uid lim s =
        queryLocalMoods uid lim s.moods) ∧
    (∀ uid lim, queryLocalMoods uid lim [] = []) ∧
    queryLocalMoods "u1" 10 scenarioStoreC.moods =
      [(demoMood "u1" 4 30).withId "mood-30",
       (demoMood "u1" 5 20).withId "mood-20",
       (demoMood "u1" 3 10).withId "mood-10"] := by
  refine ⟨?_, ?_, ?_, ?_⟩
  · intro uid lim moods
    refine ⟨?_, ?_, ?_⟩
    · unfold queryLocalMoods
      exact List.length_take_le _ _
    · intro e he
      unfold queryLocalMoods at he
      have h1 := List.mem_of_mem_take he
      have h2 := (List.mem_insertionSort _).mp h1
      simpa using (List.mem_filter.mp h2).2
    · unfold queryLocalMoods
      exact List.Pairwise.sublist (List.take_sublist _ _)
        (List.sorted_insertionSort _ _)
  · intro demo uid lim s
    cases demo <;> simp [getMoodEntries]
  · intro uid lim
    simp [queryLocalMoods]
  · decide

/-- Witness for C3: ownership of the newest record in scenario C. -/
theorem getRecent_filter_order_limit_witness :
    ((demoMood "u1" 4 30).withId "mood-30").userId = "u1" :=
  (getRecent_filter_order_limit.1 "u1" 10 scenarioStoreC.moods).2.1
    ((demoMood "u1" 4 30).withId "mood-30") (by decide)

theorem updateFirst_length (id : String) (p : JournalPatch) :
    ∀ l : List JournalEntry, (updateFirst id p l).length = l.length
  | [] => rfl
  | e :: rest => by
    by_cases hid : e.id == id <;>
      simp [updateFirst, hid, updateFirst_length id p rest]

theorem updateFirst_found (id : String) (p : JournalPatch) :
    ∀ l : List JournalEntry, (∃ e ∈ l, e.id = id) →
      ∃ (i : ℕ) (e₀ : JournalEntry), l[i]? = some e₀ ∧ e₀.id = id ∧
        (updateFirst id p l)[i]? = some (mergeJournalEntry e₀ p) ∧
        ∀ j : ℕ, j ≠ i → (updateFirst id p l)[j]? = l[j]?
  | [], h => by simp at h
  | e :: rest, h => by
    by_cases hid : e.id == id
    · refine ⟨0, e, by simp, by simpa using hid, ?_, ?_⟩
      · simp [updateFirst, hid]
      · intro j hj
        cases j with
        | zero => exact absurd rfl hj
        | succ jj => simp [updateFirst, hid]
    · have hne : ¬ e.id = id := by simpa using hid
      have hrest : ∃ w ∈ rest, w.id = id := by
        rcases h with ⟨w, hw, hwid⟩
        rcases List.mem_cons.mp hw with hweq | hwmem
        · exact absurd (hweq ▸ hwid) hne
        · exact ⟨w, hwmem, hwid⟩
      rcases updateFirst_found id p rest hrest with ⟨i, e₀, h1, h2, h3, h4⟩
      refine ⟨i + 1, e₀, by simpa using h1, h2, ?_, ?_⟩
      · simpa [updateFirst, hid] using h3
      · intro j hj
        cases j with
        | zero => simp [updateFirst, hid]
        | succ jj =>
          have hji : jj ≠ i := fun hh => hj (by rw [hh])
          simpa [updateFirst, hid] using h4 jj hji

/-- **C10**: in demo mode, updating an existing journal id patches exactly
the first matching entry in place — the store keeps its length and order,
every other position is untouched, and on the patched entry each field
absent from the patch keeps its prior value while each present field is
replaced. -/
theorem updateJournal_frame :
    (∀ remote id p s, (∃ e ∈ s.journals, e.id = id) →
      (updateJournalEntry true remote id p s).journals.length = s.journals.length ∧
      ∃ (i : ℕ) (e₀ : JournalEntry), s.journals[i]? = some e₀ ∧ e₀.id = id ∧
        (updateJournalEntry true remote id p s).journals[i]? =
          some (mergeJournalEntry e₀ p) ∧
        ∀ j : ℕ, j ≠ i → (updateJournalEntry true remote id p s).journals[j]? =
          s.journals[j]?) ∧
    (∀ remote id p s, (updateJournalEntry true remote id p s).moods = s.moods) ∧
    (∀ (old : JournalEntry) (q : JournalPatch),
      (q.id = none → (mergeJournalEntry old q).id = old.id) ∧
      (∀ v, q.id = some v → (mergeJournalEntry old q).id = v) ∧
      (q.userId = none → (mergeJournalEntry old q).userId = old.userId) ∧
      (∀ v, q.userId = some v → (mergeJournalEntry old q).userId = v) ∧
      (q.title = none → (mergeJournalEntry old q).title = old.title) ∧
      (∀ v, q.title = some v → (mergeJournalEntry old q).title = v) ∧
      (q.content = none → (mergeJournalEntry old q).content = old.content) ∧
      (∀ v, q.content = some v → (mergeJournalEntry old q).content = v) ∧
      (q.timestamp = none → (mergeJournalEntry old q).timestamp = old.timestamp) ∧
      (∀ v, q.timestamp = some v → (mergeJournalEntry old q).timestamp = v) ∧
      (q.prompt = none → (mergeJournalEntry old q).prompt = old.prompt) ∧
      (∀ v, q.prompt = some v → (mergeJournalEntry old q).prompt = v) ∧
      (q.mood = none → (mergeJournalEntry old q).mood = old.mood) ∧
      (∀ v, q.mood = some v → (mergeJournalEntry old q).mood = v) ∧
      (q.emotions = none → (mergeJournalEntry old q).emotions = old.emotions) ∧
      (∀ v, q.emotions = some v → (mergeJournalEntry old q).emotions = v) ∧
      (q.sentimentScore = none →
        (mergeJournalEntry old q).sentimentScore = old.sentimentScore) ∧
      (∀ v, q.sentimentScore = some v → (mergeJournalEntry old q).sentimentScore = v) ∧
      (q.sentimentLabel = none →
        (mergeJournalEntry old q).sentimentLabel = old.sentimentLabel) ∧
      (∀ v, q.sentimentLabel = some v → (mergeJournalEntry old q).sentimentLabel = v) ∧
      (q.updatedAt = none → (mergeJournalEntry old q).updatedAt = old.updatedAt) ∧
      (∀ v, q.updatedAt = some v → (mergeJournalEntry old q).updatedAt = v) ∧
      (q.sentimentAnalysis = none →
        (mergeJournalEntry old q).sentimentAnalysis = old.sentimentAnalysis) ∧
      (∀ v, q.sentimentAnalysis = some v →
        (mergeJournalEntry old q).sentimentAnalysis = v) ∧
      (q.patterns = none → (mergeJournalEntry old q).patterns = old.patterns) ∧
      (∀ v, q.patterns = some v → (mergeJournalEntry old q).patterns = v)) := by
  refine ⟨?_, ?_, ?_⟩
  · intro remote id p s h
    have hu : (updateJournalEntry true remote id p s).journals =
        updateFirst id p s.journals := rfl
    rw [hu]
    exact ⟨updateFirst_length id p s.journals, updateFirst_found id p s.journals h⟩
  · intro remote id p s
    rfl
  · intro old q
    refine ⟨?_, ?_, ?_, ?_, ?_, ?_, ?_, ?_, ?_, ?_, ?_, ?_, ?_, ?_, ?_, ?_, ?_, ?_,
      ?_, ?_, ?_, ?_, ?_, ?_, ?_, ?_⟩ <;>
      · intros
        simp_all [mergeJournalEntry]

/-- Witness for C10: patching the title of the single stored entry keeps the
store's length. -/
theorem updateJournal_frame_witness :
    (updateJournalEntry true RemoteWrite.ok "j1" samplePatch
      ⟨[], [sampleJournal]⟩).journals.length = ([sampleJournal] : List JournalEntry).length :=
  (updateJournal_frame.1 RemoteWrite.ok "j1" samplePatch ⟨[], [sampleJournal]⟩
    ⟨sampleJournal, by simp, rfl⟩).1

end InnerPeace
